import Mathlib

/-!
Shallow embedding of the SP500MomentumTracker program (sp500_tracker.py).

Prices and percentages are embedded as rationals (the Python code uses
floats); rounding follows Python's round-half-to-even. Fallible external
calls (web fetch, price fetch) are embedded as explicit outcome values
passed in as parameters, and code paths that raise are embedded as
explicit error results.
-/

namespace SP500

/-- Event status stored in the tracking ledger. The code writes exactly the
strings active and completed (lines 98, 185). -/
inductive Status where
  | active
  | completed
deriving DecidableEq, Repr

/-- One row of the tracking ledger (tracking_list.csv). The columns
current_price, total_change_pct and last_updated do not exist until the
first daily update writes them (lines 179-181), hence Option. -/
structure Event where
  ticker : String
  date_detected : String
  detection_price : ℚ
  change_pct : ℚ
  business_days_tracked : ℕ
  status : Status
  current_price : Option ℚ
  total_change_pct : Option ℚ
  last_updated : Option String
deriving DecidableEq, Repr

/-- One row of the append-only snapshot log (daily_snapshots.csv),
built at lines 191-201. -/
structure Snapshot where
  ticker : String
  date_detected : String
  tracking_day : ℕ
  current_date : String
  detection_price : ℚ
  current_price : ℚ
  initial_change_pct : ℚ
  cumulative_change_pct : ℚ
  status : Status
deriving DecidableEq, Repr

/-- Python's round to the nearest integer, ties to even. -/
def pyRound (x : ℚ) : ℤ :=
  let f := ⌊x⌋
  let r := x - (f : ℚ)
  if r < 1 / 2 then f
  else if 1 / 2 < r then f + 1
  else if f % 2 = 0 then f else f + 1

/-- Python's round(x, 2) as used at lines 96, 180, 199. -/
def round2 (x : ℚ) : ℚ := (pyRound (x * 100) : ℚ) / 100

/-- Outcome of the per-symbol history fetch inside get_daily_movers:
either a list of close prices, or the provider raised. -/
inductive HistFetch where
  | ok (closes : List ℚ)
  | raised
deriving DecidableEq, Repr

/-- Per-symbol body of get_daily_movers (lines 83-99): with fewer than two
closes the symbol is skipped; otherwise change_pct is computed from the last
two closes and an Event with observation count 0 and status active is
emitted iff abs(change_pct) is at least the threshold. -/
def detect_mover (threshold : ℚ) (ticker date : String) (closes : List ℚ) :
    Option Event :=
  match closes.reverse with
  | today_close :: prev_close :: _ =>
    let change_pct := (today_close - prev_close) / prev_close * 100
    if threshold ≤ |change_pct| then
      some { ticker := ticker
             date_detected := date
             detection_price := today_close
             change_pct := round2 change_pct
             business_days_tracked := 0
             status := Status.active
             current_price := none
             total_change_pct := none
             last_updated := none }
    else none
  | _ => none

/-- get_daily_movers (lines 65-111): scan the universe sequentially; a
symbol whose fetch raised is logged and skipped (lines 107-109). -/
def get_daily_movers (threshold : ℚ) (date : String) (symbols : List String)
    (hist : String → HistFetch) : List Event :=
  symbols.filterMap fun t =>
    match hist t with
    | HistFetch.ok closes => detect_mover threshold t date closes
    | HistFetch.raised => none

/-- Outcome of the single-ticker latest-close fetch inside
get_current_prices: a close, an empty history frame, or a raised error. -/
inductive FetchOutcome where
  | ok (close : ℚ)
  | emptyHist
  | raised
deriving DecidableEq, Repr

/-- get_current_prices (lines 132-144) as a lookup map: a ticker in the
requested list maps to its close when the fetch succeeded with data; an
empty history leaves the ticker absent from the dict and an error stores
None, so dict.get yields None in both cases; tickers outside the list are
absent. -/
def get_current_prices (fetch : String → FetchOutcome) (tickers : List String) :
    String → Option ℚ := fun t =>
  if t ∈ tickers then
    match fetch t with
    | FetchOutcome.ok close => some close
    | FetchOutcome.emptyHist => none
    | FetchOutcome.raised => none
  else none

/-- Loop body of track_existing_stocks for one active row (lines 166-201),
given the value current_prices.get(ticker): with no price the row is
skipped (lines 170-171); otherwise observation count is incremented,
cumulative change is recomputed from the stored detection price and rounded,
status becomes completed once days_tracked reaches 10, and one snapshot
row carrying the post-update status is produced. -/
def update_event (today : String) (price : Option ℚ) (e : Event) :
    Event × Option Snapshot :=
  match price with
  | none => (e, none)
  | some current_price =>
    let days_tracked := e.business_days_tracked + 1
    let price_change := (current_price - e.detection_price) / e.detection_price * 100
    let status_after := if 10 ≤ days_tracked then Status.completed else e.status
    ({ e with
        business_days_tracked := days_tracked
        current_price := some current_price
        total_change_pct := some (round2 price_change)
        last_updated := some today
        status := status_after },
     some { ticker := e.ticker
            date_detected := e.date_detected
            tracking_day := days_tracked
            current_date := today
            detection_price := e.detection_price
            current_price := current_price
            initial_change_pct := e.change_pct
            cumulative_change_pct := round2 price_change
            status := status_after })

/-- One Daily Updater run as seen by a single ledger row: only rows with
status active are selected for update (line 153); completed rows are left
untouched and get no snapshot. -/
def step (today : String) (price : Option ℚ) (e : Event) :
    Event × Option Snapshot :=
  if e.status = Status.active then update_event today price e else (e, none)

/-- track_existing_stocks (lines 146-214) over an in-memory ledger: every
row is passed through step with its fetched price; the appended snapshot
rows are collected in ledger order. -/
def track_existing_stocks (today : String) (prices : String → Option ℚ)
    (tracking : List Event) : List Event × List Snapshot :=
  (tracking.map fun e => (step today (prices e.ticker) e).1,
   tracking.filterMap fun e => (step today (prices e.ticker) e).2)

/-- A sequence of Daily Updater runs applied to one event; each run is a
pair of the run date and the price available for the event's ticker that
day (none when unavailable). Returns the final event state and all
snapshot rows appended for the event, in order. -/
def run_daily_updates : Event → List (String × Option ℚ) → Event × List Snapshot
  | e, [] => (e, [])
  | e, (d, p) :: rest =>
    let r := step d p e
    let next := run_daily_updates r.1 rest
    (next.1, r.2.toList ++ next.2)

/-- The two CSV stores touched by archive_completed_stocks: the active
ledger (tracking_list.csv, possibly not yet created) and the append-only
historical store (historical_tracking.csv). -/
structure Stores where
  tracking : Option (List Event)
  historical : List Event
deriving DecidableEq, Repr

/-- archive_completed_stocks (lines 216-237): if the tracking file does not
exist, or holds no completed row, nothing is written; otherwise the
completed rows are appended to the historical store and the tracking file
is rewritten keeping only the rows with status active. -/
def archive_completed_stocks (s : Stores) : Stores :=
  match s.tracking with
  | none => s
  | some tracking_df =>
    let completed := tracking_df.filter fun e => decide (e.status = Status.completed)
    if completed.isEmpty then s
    else
      { tracking := some (tracking_df.filter fun e => decide (e.status = Status.active))
        historical := s.historical ++ completed }

/-- Result of a Python call: a returned value or a raised exception. -/
inductive PyResult (α : Type) where
  | ok (value : α)
  | raised (message : String)
deriving DecidableEq, Repr

/-- True iff the call returned normally. -/
def PyResult.isOk {α : Type} : PyResult α → Bool
  | PyResult.ok _ => true
  | PyResult.raised _ => false

/-- The hardcoded minimal ticker list bound to the local name
fallback_tickers at lines 56-62. -/
def fallback_tickers : List String :=
  ["AAPL", "MSFT", "GOOGL", "AMZN", "NVDA", "META", "TSLA", "BRK.B",
   "UNH", "JNJ", "XOM", "V", "PG", "JPM", "MA", "HD", "CVX", "MRK",
   "LLY", "ABBV", "PEP", "AVGO", "KO", "COST", "WMT", "MCD", "CSCO",
   "TMO", "ACN", "ABT", "ADBE", "CRM", "NFLX", "DHR", "VZ", "NKE",
   "TXN", "DIS", "INTC", "CMCSA", "PM", "UPS", "ORCL", "AMD", "NEE"]

/-- get_sp500_tickers (lines 24-63), with the outcomes of the two fallible
external steps (Wikipedia scrape, cache file read) passed as parameters:
some ts when the step produced a usable list, none when it failed or the
cache file is absent. When both fail, line 63 executes return
fallback_ickers, a misspelling of the local name fallback_tickers defined
at line 56, so the call raises NameError instead of returning the
hardcoded list. -/
def get_sp500_tickers (wikipedia cache : Option (List String)) :
    PyResult (List String) :=
  match wikipedia with
  | some tickers => PyResult.ok tickers
  | none =>
    match cache with
    | some tickers => PyResult.ok tickers
    | none => PyResult.raised "NameError: name fallback_ickers is not defined"

/-- Value domain of the momentum feature: a finite rational, or one of the
IEEE special values that pandas float division produces. -/
inductive FVal where
  | fin (q : ℚ)
  | posInf
  | negInf
  | nan
deriving DecidableEq, Repr

/-- Division of two finite values with IEEE semantics for a zero divisor,
as pandas performs it on float columns: a positive numerator over zero
gives +inf, a negative one -inf, and zero over zero gives NaN. -/
def fdiv (a b : ℚ) : FVal :=
  if b = 0 then
    if 0 < a then FVal.posInf
    else if a < 0 then FVal.negInf
    else FVal.nan
  else FVal.fin (a / b)

/-- Line 297: the momentum_continuation column is
cumulative_change_pct / initial_change_pct, computed by plain columnwise
division for every row with no branch on the denominator. -/
def momentum_continuation (s : Snapshot) : FVal :=
  fdiv s.cumulative_change_pct s.initial_change_pct

/-- Modelled from the spec: the momentum continuation ratio with the
zero-initial case special-cased to the explicit undefined value instead of
being divided (the code has no such branch; this definition exists to be
compared with momentum_continuation). -/
def momentum_continuation_sentinel (s : Snapshot) : FVal :=
  if s.initial_change_pct = 0 then FVal.nan
  else FVal.fin (s.cumulative_change_pct / s.initial_change_pct)

/-- Lines 300-301: continued_direction is true iff initial and cumulative
change percent are both strictly positive or both strictly negative. -/
def continued_direction (s : Snapshot) : Bool :=
  (decide (0 < s.initial_change_pct) && decide (0 < s.cumulative_change_pct))
    || (decide (s.initial_change_pct < 0) && decide (s.cumulative_change_pct < 0))

end SP500

namespace SP500

theorem status_cases (s : Status) : s = Status.active ∨ s = Status.completed := by
  cases s
  · exact Or.inl rfl
  · exact Or.inr rfl

theorem update_event_none (d : String) (e : Event) :
    update_event d none e = (e, none) := rfl

theorem step_none (d : String) (e : Event) : step d none e = (e, none) := by
  by_cases h : e.status = Status.active <;> simp [step, h, update_event]

theorem step_of_completed (d : String) (p : Option ℚ) (e : Event)
    (h : e.status = Status.completed) : step d p e = (e, none) := by
  have h' : ¬ e.status = Status.active := by rw [h]; intro hc; cases hc
  simp [step, h']

theorem step_active_some (d : String) (p : ℚ) (e : Event)
    (h : e.status = Status.active) :
    step d (some p) e =
      ({ e with
          business_days_tracked := e.business_days_tracked + 1
          current_price := some p
          total_change_pct :=
            some (round2 ((p - e.detection_price) / e.detection_price * 100))
          last_updated := some d
          status := if 10 ≤ e.business_days_tracked + 1 then Status.completed
                    else e.status },
       some { ticker := e.ticker
              date_detected := e.date_detected
              tracking_day := e.business_days_tracked + 1
              current_date := d
              detection_price := e.detection_price
              current_price := p
              initial_change_pct := e.change_pct
              cumulative_change_pct :=
                round2 ((p - e.detection_price) / e.detection_price * 100)
              status := if 10 ≤ e.business_days_tracked + 1 then Status.completed
                        else e.status }) := by
  simp [step, h, update_event]

/-- The reachable states of one event under the Daily Updater: an active
event has had fewer than 10 observations, a completed one exactly 10. -/
def EventInv (e : Event) : Prop :=
  (e.status = Status.active → e.business_days_tracked < 10) ∧
  (e.status = Status.completed → e.business_days_tracked = 10)

theorem EventInv.le_ten {e : Event} (h : EventInv e) :
    e.business_days_tracked ≤ 10 := by
  rcases status_cases e.status with hs | hs
  · exact Nat.le_of_lt (h.1 hs)
  · exact Nat.le_of_eq (h.2 hs)

theorem step_inv (d : String) (p : Option ℚ) (e : Event) (h : EventInv e) :
    EventInv (step d p e).1 := by
  rcases status_cases e.status with hs | hs
  · cases p with
    | none => rw [step_none]; exact h
    | some q =>
      rw [step_active_some d q e hs]
      have hlt := h.1 hs
      dsimp only [EventInv]
      by_cases h10 : 10 ≤ e.business_days_tracked + 1
      · rw [if_pos h10]
        exact ⟨fun hc => Status.noConfusion hc, fun _ => by omega⟩
      · rw [if_neg h10, hs]
        exact ⟨fun _ => by omega, fun hc => Status.noConfusion hc⟩
  · rw [step_of_completed d p e hs]; exact h

theorem step_count_mono (d : String) (p : Option ℚ) (e : Event) :
    e.business_days_tracked ≤ (step d p e).1.business_days_tracked := by
  rcases status_cases e.status with hs | hs
  · cases p with
    | none => rw [step_none]
    | some q => rw [step_active_some d q e hs]; exact Nat.le_succ _
  · rw [step_of_completed d p e hs]

theorem step_frame (d : String) (p : Option ℚ) (e : Event) :
    (step d p e).1.detection_price = e.detection_price ∧
    (step d p e).1.change_pct = e.change_pct ∧
    (step d p e).1.ticker = e.ticker ∧
    (step d p e).1.date_detected = e.date_detected := by
  rcases status_cases e.status with hs | hs
  · cases p with
    | none => rw [step_none]; exact ⟨rfl, rfl, rfl, rfl⟩
    | some q => rw [step_active_some d q e hs]; exact ⟨rfl, rfl, rfl, rfl⟩
  · rw [step_of_completed d p e hs]; exact ⟨rfl, rfl, rfl, rfl⟩

theorem run_daily_updates_nil (e : Event) : run_daily_updates e [] = (e, []) := rfl

theorem run_daily_updates_cons (e : Event) (d : String) (p : Option ℚ)
    (rest : List (String × Option ℚ)) :
    run_daily_updates e ((d, p) :: rest) =
      ((run_daily_updates (step d p e).1 rest).1,
       (step d p e).2.toList ++ (run_daily_updates (step d p e).1 rest).2) := rfl

theorem run_inv (e : Event) (l : List (String × Option ℚ)) (h : EventInv e) :
    EventInv (run_daily_updates e l).1 := by
  induction l generalizing e with
  | nil => exact h
  | cons dp rest ih =>
    obtain ⟨d, p⟩ := dp
    rw [run_daily_updates_cons]
    exact ih _ (step_inv d p e h)

theorem run_count_mono (e : Event) (l : List (String × Option ℚ)) :
    e.business_days_tracked ≤ (run_daily_updates e l).1.business_days_tracked := by
  induction l generalizing e with
  | nil => exact Nat.le_refl _
  | cons dp rest ih =>
    obtain ⟨d, p⟩ := dp
    rw [run_daily_updates_cons]
    exact Nat.le_trans (step_count_mono d p e) (ih _)

theorem run_append (e : Event) (l l' : List (String × Option ℚ)) :
    (run_daily_updates e (l ++ l')).1 =
      (run_daily_updates (run_daily_updates e l).1 l').1 := by
  induction l generalizing e with
  | nil => rfl
  | cons dp rest ih =>
    obtain ⟨d, p⟩ := dp
    rw [List.cons_append, run_daily_updates_cons, run_daily_updates_cons, ih]

theorem run_frame (e : Event) (l : List (String × Option ℚ)) :
    (run_daily_updates e l).1.detection_price = e.detection_price ∧
    (run_daily_updates e l).1.change_pct = e.change_pct ∧
    (run_daily_updates e l).1.ticker = e.ticker ∧
    (run_daily_updates e l).1.date_detected = e.date_detected := by
  induction l generalizing e with
  | nil => exact ⟨rfl, rfl, rfl, rfl⟩
  | cons dp rest ih =>
    obtain ⟨d, p⟩ := dp
    rw [run_daily_updates_cons]
    obtain ⟨h1, h2, h3, h4⟩ := ih (step d p e).1
    obtain ⟨g1, g2, g3, g4⟩ := step_frame d p e
    exact ⟨h1.trans g1, h2.trans g2, h3.trans g3, h4.trans g4⟩

theorem step_snap_count (d : String) (p : Option ℚ) (e : Event) :
    (step d p e).2.toList.length + e.business_days_tracked
      = (step d p e).1.business_days_tracked := by
  rcases status_cases e.status with hs | hs
  · cases p with
    | none => rw [step_none]; simp
    | some q => rw [step_active_some d q e hs]; simp [Nat.add_comm]
  · rw [step_of_completed d p e hs]; simp

theorem run_snap_count (e : Event) (l : List (String × Option ℚ)) :
    (run_daily_updates e l).2.length + e.business_days_tracked
      = (run_daily_updates e l).1.business_days_tracked := by
  induction l generalizing e with
  | nil => rw [run_daily_updates_nil]; simp
  | cons dp rest ih =>
    obtain ⟨d, p⟩ := dp
    rw [run_daily_updates_cons]
    simp only [List.length_append]
    have h1 := step_snap_count d p e
    have h2 := ih (step d p e).1
    omega

end SP500

namespace SP500

/-- A freshly detected event, as the Event Detector creates it, used to
instantiate the lifecycle theorems. -/
def sampleEvent : Event :=
  { ticker := "AAPL"
    date_detected := "2024-01-02"
    detection_price := 100
    change_pct := 6
    business_days_tracked := 0
    status := Status.active
    current_price := none
    total_change_pct := none
    last_updated := none }

/-- One Daily Updater run in which the price 110 is available. -/
def sampleRuns1 : List (String × Option ℚ) := [("2024-01-03", some 110)]

/-- One further Daily Updater run in which no price is available. -/
def sampleRuns2 : List (String × Option ℚ) := [("2024-01-04", none)]

/-- C1: for every active event with an available current price, one Daily
Updater step increments the observation count by exactly 1, stores
cumulative change percent equal to
(current - detection) / detection * 100 rounded to two decimal places,
sets status to completed exactly when the new observation count reaches
10, and appends exactly one snapshot carrying the post-update status. -/
theorem daily_step_updates_active_event (today : String) (e : Event) (p : ℚ)
    (ha : e.status = Status.active) :
    (step today (some p) e).1.business_days_tracked
        = e.business_days_tracked + 1 ∧
    (step today (some p) e).1.total_change_pct
        = some (round2 ((p - e.detection_price) / e.detection_price * 100)) ∧
    (10 ≤ (step today (some p) e).1.business_days_tracked →
        (step today (some p) e).1.status = Status.completed) ∧
    ((step today (some p) e).1.business_days_tracked < 10 →
        (step today (some p) e).1.status = Status.active) ∧
    ∃ s, (step today (some p) e).2 = some s ∧
        s.status = (step today (some p) e).1.status := by
  rw [step_active_some today p e ha]
  refine ⟨rfl, rfl, ?_, ?_, ?_⟩
  · intro h10
    dsimp only at h10 ⊢
    rw [if_pos h10]
  · intro hlt
    dsimp only at hlt ⊢
    rw [if_neg (by omega), ha]
  · exact ⟨_, rfl, rfl⟩

/-- C1 witness: the theorem applied to the sample event with price 110. -/
theorem daily_step_updates_active_event_w :
    sampleEvent.status = Status.active ∧
    ((step "2024-01-03" (some 110) sampleEvent).1.business_days_tracked
        = sampleEvent.business_days_tracked + 1 ∧
     (step "2024-01-03" (some 110) sampleEvent).1.total_change_pct
        = some (round2 ((110 - sampleEvent.detection_price)
            / sampleEvent.detection_price * 100)) ∧
     (10 ≤ (step "2024-01-03" (some 110) sampleEvent).1.business_days_tracked →
        (step "2024-01-03" (some 110) sampleEvent).1.status = Status.completed) ∧
     ((step "2024-01-03" (some 110) sampleEvent).1.business_days_tracked < 10 →
        (step "2024-01-03" (some 110) sampleEvent).1.status = Status.active) ∧
     ∃ s, (step "2024-01-03" (some 110) sampleEvent).2 = some s ∧
        s.status = (step "2024-01-03" (some 110) sampleEvent).1.status) :=
  ⟨rfl, daily_step_updates_active_event "2024-01-03" sampleEvent 110 rfl⟩

/-- C2: starting from a freshly detected event (observation count 0,
status active), across every sequence of Daily Updater runs the
observation count is non-decreasing and never exceeds 10, increases by
exactly 1 per successful update while the event is active, the event is
completed exactly when the count has reached 10, and a completed event is
never updated again (so it never reverts to active). -/
theorem tracking_lifecycle_invariants (e : Event)
    (he : e.business_days_tracked = 0) (ha : e.status = Status.active)
    (l l' : List (String × Option ℚ)) :
    (run_daily_updates e l).1.business_days_tracked
        ≤ (run_daily_updates e (l ++ l')).1.business_days_tracked ∧
    (run_daily_updates e l).1.business_days_tracked ≤ 10 ∧
    (∀ d p, (run_daily_updates e l).1.status = Status.active →
        (step d (some p) (run_daily_updates e l).1).1.business_days_tracked
          = (run_daily_updates e l).1.business_days_tracked + 1) ∧
    ((run_daily_updates e l).1.status = Status.completed ↔
        (run_daily_updates e l).1.business_days_tracked = 10) ∧
    ((run_daily_updates e l).1.status = Status.completed →
        ∀ d p, step d p (run_daily_updates e l).1
          = ((run_daily_updates e l).1, none)) := by
  have h0 : EventInv e :=
    ⟨fun _ => by omega, fun hc => by rw [ha] at hc; exact Status.noConfusion hc⟩
  have hInv := run_inv e l h0
  refine ⟨?_, hInv.le_ten, ?_, ?_, ?_⟩
  · rw [run_append]
    exact run_count_mono _ _
  · intro d p hac
    rw [step_active_some d p _ hac]
  · constructor
    · exact hInv.2
    · intro h10
      rcases status_cases (run_daily_updates e l).1.status with hs | hs
      · have := hInv.1 hs
        omega
      · exact hs
  · intro hc d p
    exact step_of_completed d p _ hc

/-- C2 witness: the theorem applied to the sample event and two concrete
run sequences. -/
theorem tracking_lifecycle_invariants_w :
    sampleEvent.business_days_tracked = 0 ∧
    sampleEvent.status = Status.active ∧
    ((run_daily_updates sampleEvent sampleRuns1).1.business_days_tracked
        ≤ (run_daily_updates sampleEvent (sampleRuns1 ++ sampleRuns2)).1.business_days_tracked ∧
     (run_daily_updates sampleEvent sampleRuns1).1.business_days_tracked ≤ 10 ∧
     (∀ d p, (run_daily_updates sampleEvent sampleRuns1).1.status = Status.active →
        (step d (some p) (run_daily_updates sampleEvent sampleRuns1).1).1.business_days_tracked
          = (run_daily_updates sampleEvent sampleRuns1).1.business_days_tracked + 1) ∧
     ((run_daily_updates sampleEvent sampleRuns1).1.status = Status.completed ↔
        (run_daily_updates sampleEvent sampleRuns1).1.business_days_tracked = 10) ∧
     ((run_daily_updates sampleEvent sampleRuns1).1.status = Status.completed →
        ∀ d p, step d p (run_daily_updates sampleEvent sampleRuns1).1
          = ((run_daily_updates sampleEvent sampleRuns1).1, none))) :=
  ⟨rfl, rfl, tracking_lifecycle_invariants sampleEvent rfl rfl sampleRuns1 sampleRuns2⟩

/-- C7: an active event whose latest close price is unavailable (the
get_current_prices lookup yields none, covering both a raised fetch and an
empty history) is skipped for the run: the event is returned unchanged in
every field and no snapshot is appended for it. -/
theorem skip_event_when_price_unavailable (today : String) (e : Event)
    (ha : e.status = Status.active)
    (fetch : String → FetchOutcome) (tickers : List String)
    (hp : get_current_prices fetch tickers e.ticker = none) :
    step today (get_current_prices fetch tickers e.ticker) e = (e, none) := by
  rw [hp, step_none]

/-- C7 witness: the theorem applied to the sample event when the price
fetch for its ticker raises. -/
theorem skip_event_when_price_unavailable_w :
    sampleEvent.status = Status.active ∧
    get_current_prices (fun _ => FetchOutcome.raised) ["AAPL"] sampleEvent.ticker
        = none ∧
    step "2024-01-03"
        (get_current_prices (fun _ => FetchOutcome.raised) ["AAPL"] sampleEvent.ticker)
        sampleEvent = (sampleEvent, none) :=
  ⟨rfl, rfl,
   skip_event_when_price_unavailable "2024-01-03" sampleEvent rfl
     (fun _ => FetchOutcome.raised) ["AAPL"] rfl⟩

/-- C9: the detection price and initial change percent (and the identity
fields ticker and detection date) are never modified by a Daily Updater
step nor by any sequence of runs; a step only ever changes observation
count, current price, cumulative change percent, last-updated date and
status. -/
theorem detection_fields_immutable (d : String) (p : Option ℚ) (e : Event)
    (l : List (String × Option ℚ)) :
    (step d p e).1.detection_price = e.detection_price ∧
    (step d p e).1.change_pct = e.change_pct ∧
    (step d p e).1.ticker = e.ticker ∧
    (step d p e).1.date_detected = e.date_detected ∧
    (run_daily_updates e l).1.detection_price = e.detection_price ∧
    (run_daily_updates e l).1.change_pct = e.change_pct ∧
    (run_daily_updates e l).1.ticker = e.ticker ∧
    (run_daily_updates e l).1.date_detected = e.date_detected := by
  obtain ⟨a, b, c, d'⟩ := step_frame d p e
  obtain ⟨a', b', c', d''⟩ := run_frame e l
  exact ⟨a, b, c, d', a', b', c', d''⟩

/-- C10: every snapshot produced by a step records a tracking day equal to
the post-update observation count; a successful update of an active event
produces exactly one snapshot; and over any sequence of runs starting from
a freshly detected event, the number of snapshots appended for the event
equals its observation count. -/
theorem snapshot_count_matches_observations (e : Event)
    (he : e.business_days_tracked = 0) (ha : e.status = Status.active)
    (l : List (String × Option ℚ)) :
    (∀ (e₁ e₂ : Event) (d : String) (p : Option ℚ) (s : Snapshot),
        step d p e₁ = (e₂, some s) → s.tracking_day = e₂.business_days_tracked) ∧
    (∀ (e₁ : Event) (d : String) (p : ℚ), e₁.status = Status.active →
        ∃ s, (step d (some p) e₁).2 = some s) ∧
    (run_daily_updates e l).2.length
        = (run_daily_updates e l).1.business_days_tracked := by
  refine ⟨?_, ?_, ?_⟩
  · intro e₁ e₂ d p s hstep
    rcases status_cases e₁.status with hs | hs
    · cases p with
      | none =>
        rw [step_none] at hstep
        exact Option.noConfusion (congrArg Prod.snd hstep)
      | some q =>
        rw [step_active_some d q e₁ hs] at hstep
        have h1 := congrArg Prod.fst hstep
        have h2 := congrArg Prod.snd hstep
        dsimp only at h1 h2
        injection h2 with h2
        rw [← h2, ← h1]
    · rw [step_of_completed d p e₁ hs] at hstep
      exact Option.noConfusion (congrArg Prod.snd hstep)
  · intro e₁ d p hs
    rw [step_active_some d p e₁ hs]
    exact ⟨_, rfl⟩
  · have := run_snap_count e l
    omega

end SP500

namespace SP500

theorem filter_active_then_completed (df : List Event) :
    (df.filter fun e => decide (e.status = Status.active)).filter
      (fun e => decide (e.status = Status.completed)) = [] := by
  induction df with
  | nil => rfl
  | cons e rest ih =>
    rcases status_cases e.status with hs | hs <;>
      simp [List.filter_cons, hs, ih]

/-- A sample pair of stores with one completed and one active row. -/
def sampleStores : Stores :=
  { tracking := some
      [{ sampleEvent with status := Status.completed, business_days_tracked := 10 },
       sampleEvent]
    historical := [] }

/-- C3: the Archiver is idempotent: a second consecutive invocation with no
intervening Daily Updater run changes neither the active ledger nor the
historical store. -/
theorem archiver_idempotent (s : Stores) :
    archive_completed_stocks (archive_completed_stocks s)
      = archive_completed_stocks s := by
  obtain ⟨tr, hist⟩ := s
  cases tr with
  | none => rfl
  | some df =>
    by_cases hc : (df.filter fun e => decide (e.status = Status.completed)).isEmpty
    · have h1 : archive_completed_stocks ⟨some df, hist⟩ = ⟨some df, hist⟩ := by
        simp only [archive_completed_stocks, hc, if_pos]
      rw [h1, h1]
    · have h1 : archive_completed_stocks ⟨some df, hist⟩ =
          ⟨some (df.filter fun e => decide (e.status = Status.active)),
           hist ++ df.filter fun e => decide (e.status = Status.completed)⟩ := by
        simp [archive_completed_stocks, hc]
      rw [h1]
      simp only [archive_completed_stocks, filter_active_then_completed,
        List.isEmpty_nil, if_pos]

/-- C3 witness: the theorem applied to the sample stores. -/
theorem archiver_idempotent_w :
    archive_completed_stocks (archive_completed_stocks sampleStores)
      = archive_completed_stocks sampleStores :=
  archiver_idempotent sampleStores

/-- C4 (code defect): with the Wikipedia fetch failed and no usable cache,
get_sp500_tickers does not return the hardcoded 45-ticker list: line 63
returns the misspelled name fallback_ickers, so the call raises NameError
and the exception propagates past the core. -/
theorem universe_total_failure_raises :
    get_sp500_tickers none none
        = PyResult.raised "NameError: name fallback_ickers is not defined" ∧
    (get_sp500_tickers none none).isOk = false ∧
    fallback_tickers.length = 45 :=
  ⟨rfl, rfl, rfl⟩

/-- A snapshot row whose initial change percent is exactly zero and whose
cumulative change percent is 5. -/
def zeroInitialSnap : Snapshot :=
  { ticker := "AAPL"
    date_detected := "2024-01-02"
    tracking_day := 1
    current_date := "2024-01-03"
    detection_price := 100
    current_price := 105
    initial_change_pct := 0
    cumulative_change_pct := 5
    status := Status.active }

/-- C5 counterexample: on a snapshot row with initial change percent 0 and
cumulative change percent 5 the code's momentum feature is the columnwise
division result +infinity, i.e. exactly fdiv 5 0, and it differs from the
special-cased sentinel value the claim requires. -/
theorem momentum_zero_initial_not_special_cased :
    momentum_continuation zeroInitialSnap = FVal.posInf ∧
    momentum_continuation zeroInitialSnap = fdiv 5 0 ∧
    decide (momentum_continuation zeroInitialSnap
        = momentum_continuation_sentinel zeroInitialSnap) = false := by
  have h1 : momentum_continuation zeroInitialSnap = FVal.posInf := by
    norm_num [momentum_continuation, zeroInitialSnap, fdiv]
  have h2 : momentum_continuation_sentinel zeroInitialSnap = FVal.nan := by
    norm_num [momentum_continuation_sentinel, zeroInitialSnap]
  refine ⟨h1, h1.trans ?_, decide_eq_false ?_⟩
  · norm_num [fdiv]
  · rw [h1, h2]
    exact fun hc => FVal.noConfusion hc

/-- C5 amended: the momentum continuation feature is never special-cased:
for a snapshot row with initial change percent exactly 0 it is the plain
division result fdiv cumulative 0 (an IEEE infinity or NaN), and in
particular it is never a finite sentinel value. -/
theorem momentum_zero_initial_divides (s : Snapshot)
    (h : s.initial_change_pct = 0) :
    momentum_continuation s = fdiv s.cumulative_change_pct 0 ∧
    ∀ q : ℚ, momentum_continuation s ≠ FVal.fin q := by
  constructor
  · rw [momentum_continuation, h]
  · intro q hq
    rw [momentum_continuation, h, fdiv, if_pos rfl] at hq
    split_ifs at hq

/-- C5 amended witness: the amended theorem applied to the sample
zero-initial snapshot row. -/
theorem momentum_zero_initial_divides_w :
    zeroInitialSnap.initial_change_pct = 0 ∧
    (momentum_continuation zeroInitialSnap
        = fdiv zeroInitialSnap.cumulative_change_pct 0 ∧
     ∀ q : ℚ, momentum_continuation zeroInitialSnap ≠ FVal.fin q) :=
  ⟨rfl, momentum_zero_initial_divides zeroInitialSnap rfl⟩

/-- C6: for a symbol with at least two close prices the Detector computes
change percent = (latest - previous) / previous * 100 and emits a new
event with observation count 0 and status active iff the absolute change
reaches the threshold; with threshold 5 the closes [100, 106] yield an
event with initial change percent 6 and detection price 106, and the
closes [100, 104] yield no event. -/
theorem detector_threshold_spec (threshold : ℚ) (t d : String)
    (closes : List ℚ) (today_close prev_close : ℚ) (rest : List ℚ)
    (h : closes.reverse = today_close :: prev_close :: rest) :
    (threshold ≤ |(today_close - prev_close) / prev_close * 100| →
      detect_mover threshold t d closes =
        some { ticker := t, date_detected := d, detection_price := today_close,
               change_pct := round2 ((today_close - prev_close) / prev_close * 100),
               business_days_tracked := 0, status := Status.active,
               current_price := none, total_change_pct := none,
               last_updated := none }) ∧
    (|(today_close - prev_close) / prev_close * 100| < threshold →
      detect_mover threshold t d closes = none) ∧
    detect_mover 5 t d [100, 106] =
      some { ticker := t, date_detected := d, detection_price := 106,
             change_pct := 6, business_days_tracked := 0, status := Status.active,
             current_price := none, total_change_pct := none,
             last_updated := none } ∧
    detect_mover 5 t d [100, 104] = none := by
  refine ⟨?_, ?_, ?_, ?_⟩
  · intro hth
    unfold detect_mover
    rw [h]
    dsimp only
    rw [if_pos hth]
  · intro hth
    unfold detect_mover
    rw [h]
    dsimp only
    rw [if_neg (not_le.mpr hth)]
  · norm_num [detect_mover, round2, pyRound]
  · norm_num [detect_mover, round2, pyRound]

/-- C6 witness: the theorem applied at threshold 5 to the concrete close
list [100, 106]. -/
theorem detector_threshold_spec_w :
    ([(100 : ℚ), 106].reverse = 106 :: 100 :: []) ∧
    ((5 ≤ |((106 : ℚ) - 100) / 100 * 100| →
      detect_mover 5 "X" "2024-01-02" [100, 106] =
        some { ticker := "X", date_detected := "2024-01-02",
               detection_price := 106,
               change_pct := round2 (((106 : ℚ) - 100) / 100 * 100),
               business_days_tracked := 0, status := Status.active,
               current_price := none, total_change_pct := none,
               last_updated := none }) ∧
     (|((106 : ℚ) - 100) / 100 * 100| < 5 →
      detect_mover 5 "X" "2024-01-02" [100, 106] = none) ∧
     detect_mover 5 "X" "2024-01-02" [100, 106] =
       some { ticker := "X", date_detected := "2024-01-02",
              detection_price := 106, change_pct := 6,
              business_days_tracked := 0, status := Status.active,
              current_price := none, total_change_pct := none,
              last_updated := none } ∧
     detect_mover 5 "X" "2024-01-02" [100, 104] = none) :=
  ⟨by norm_num,
   detector_threshold_spec 5 "X" "2024-01-02" [100, 106] 106 100 [] (by norm_num)⟩

/-- A snapshot row with nonzero initial change percent and cumulative
change percent exactly zero. -/
def zeroCumulativeSnap : Snapshot :=
  { ticker := "AAPL"
    date_detected := "2024-01-02"
    tracking_day := 1
    current_date := "2024-01-03"
    detection_price := 100
    current_price := 100
    initial_change_pct := 6
    cumulative_change_pct := 0
    status := Status.active }

/-- C8: the continued-direction feature is true iff initial and cumulative
change percent are both strictly positive or both strictly negative, and
it is false whenever either of them is exactly zero, even if the other is
nonzero. -/
theorem continued_direction_spec (s : Snapshot) :
    (continued_direction s = true ↔
      (0 < s.initial_change_pct ∧ 0 < s.cumulative_change_pct) ∨
      (s.initial_change_pct < 0 ∧ s.cumulative_change_pct < 0)) ∧
    ((s.initial_change_pct = 0 ∨ s.cumulative_change_pct = 0) →
      continued_direction s = false) := by
  constructor
  · simp [continued_direction]
  · intro h
    rcases h with h | h <;> simp [continued_direction, h]

/-- C8 witness: the theorem applied to the sample snapshot with nonzero
initial and zero cumulative change percent. -/
theorem continued_direction_spec_w :
    ((continued_direction zeroCumulativeSnap = true ↔
      (0 < zeroCumulativeSnap.initial_change_pct ∧
        0 < zeroCumulativeSnap.cumulative_change_pct) ∨
      (zeroCumulativeSnap.initial_change_pct < 0 ∧
        zeroCumulativeSnap.cumulative_change_pct < 0)) ∧
     ((zeroCumulativeSnap.initial_change_pct = 0 ∨
        zeroCumulativeSnap.cumulative_change_pct = 0) →
      continued_direction zeroCumulativeSnap = false)) :=
  continued_direction_spec zeroCumulativeSnap

end SP500

namespace SP500

/-- C10 witness: the theorem applied to the sample event and one concrete
run with an available price. -/
theorem snapshot_count_matches_observations_w :
    sampleEvent.business_days_tracked = 0 ∧
    sampleEvent.status = Status.active ∧
    ((∀ (e₁ e₂ : Event) (d : String) (p : Option ℚ) (s : Snapshot),
        step d p e₁ = (e₂, some s) → s.tracking_day = e₂.business_days_tracked) ∧
     (∀ (e₁ : Event) (d : String) (p : ℚ), e₁.status = Status.active →
        ∃ s, (step d (some p) e₁).2 = some s) ∧
     (run_daily_updates sampleEvent sampleRuns1).2.length
        = (run_daily_updates sampleEvent sampleRuns1).1.business_days_tracked) :=
  ⟨rfl, rfl, snapshot_count_matches_observations sampleEvent rfl rfl sampleRuns1⟩

end SP500
